import Mathlib

/-!
# Verification of the `osauth` authenticated-client core

Shallow embedding of the repository's three source files
(`src/identity.rs`, `src/client.rs`, `src/config.rs`) and proofs about
the claims of the specification.  Times are modelled as `Int`
nanoseconds (chrono durations are integer nanoseconds), machine
strings as Lean `String`, header byte values as `List Nat`.
-/

set_option maxRecDepth 10000

namespace Osauth

/-! ## Error model (`Error`, `ErrorKind`)

The repository's `error.rs` is not among the sources; the kinds are
taken from §7 of the specification.  Only the fields observed by the
sources (`kind`, `message`, `status`) are modelled. -/

/-- Modelled from the spec: error kinds of §7 (`error.rs` is not among the
source files).  `HttpStatus` stands for "the status code mapped to an error
kind"; the exact mapping is not observable in the sources, so the status
itself is carried. -/
inductive ErrorKind where
  | InvalidConfig
  | InvalidResponse
  | EndpointNotFound
  | AuthenticationFailed
  | TransportFailure
  | HttpStatus (code : Nat)
  deriving Repr, DecidableEq

structure Error where
  kind : ErrorKind
  message : String
  status : Option Nat
  deriving Repr, DecidableEq

/-- Embeds `Error::new(kind, message)`. -/
def Error.new (kind : ErrorKind) (message : String) : Error :=
  { kind := kind, message := message, status := none }

/-- Embeds `Error::with_status(status)`. -/
def Error.with_status (e : Error) (status : Nat) : Error :=
  { e with status := some status }

/-! ## Protocol data (`protocol.rs` is not among the sources)

Modelled from the spec, §6: the token body carries `expires_at`
(a timestamp, here `Int` nanoseconds since an arbitrary epoch) and a
catalog of records `{type, endpoints: [{interface, region?, url}]}`. -/

/-- Modelled from the spec: `protocol::Endpoint` (§6 catalog record shape). -/
structure Endpoint where
  interface : String
  region : Option String
  url : String
  deriving Repr, DecidableEq

/-- Modelled from the spec: `protocol::CatalogRecord` (§6). -/
structure CatalogRecord where
  service_type : String
  endpoints : List Endpoint
  deriving Repr, DecidableEq

/-- Modelled from the spec: `protocol::Token`, the body of the token
response: `token.expires_at` (timestamp, nanoseconds) and `token.catalog`. -/
structure ProtocolToken where
  expires_at : Int
  catalog : List CatalogRecord
  deriving Repr, DecidableEq

/-- Embeds `identity::Token`: the header value paired with the parsed body. -/
structure Token where
  value : String
  body : ProtocolToken
  deriving Repr, DecidableEq

/-! ## The credential cache (`cache.rs` is not among the sources)

Modelled from the spec, §4.1: a single optional slot;
`validate(pred)` is true iff a credential is present and the predicate
holds; `extract(mapper)` maps the credential when present; `set`
replaces the slot. -/

/-- Modelled from the spec: `cache::ValueCache`, a single optional slot
(§4.1).  Concurrency guarding is not representable here; the sequential
contract is. -/
def ValueCache (α : Type) : Type := Option α

/-- Modelled from the spec: `ValueCache::new`. -/
def ValueCache.new {α : Type} (v : Option α) : ValueCache α := v

/-- Modelled from the spec: `validate(pred)` is true iff a value is present
and the predicate holds on it. -/
def ValueCache.validate {α : Type} (c : ValueCache α) (pred : α → Bool) : Bool :=
  match c with
  | some v => pred v
  | none => false

/-- Modelled from the spec: `extract(mapper)` returns `mapper(value)` when
present, else absent. -/
def ValueCache.extract {α β : Type} (c : ValueCache α) (f : α → β) : Option β :=
  Option.map f c

/-- Modelled from the spec: `set(value)` replaces the slot. -/
def ValueCache.set {α : Type} (_c : ValueCache α) (v : α) : ValueCache α :=
  some v

/-! ## Header values

`http::HeaderValue` is a byte string; `to_str` succeeds iff every byte
is visible ASCII (32–126) or horizontal tab. -/

def HeaderValue : Type := List Nat

def visibleAscii (b : Nat) : Bool :=
  (32 ≤ b && b < 127) || b == 9

/-- Embeds `HeaderValue::to_str`: the value as text, when every byte is visible
ASCII. -/
def HeaderValue.to_str (h : HeaderValue) : Option String :=
  if h.all visibleAscii then
    some (String.mk (h.map Char.ofNat))
  else
    none

/-- Build a header value from a plain string (ASCII codes of its chars). -/
def HeaderValue.ofString (s : String) : HeaderValue :=
  s.data.map Char.toNat

/-! ## `identity.rs` constants -/

def MISSING_SUBJECT_HEADER : String := "Missing X-Subject-Token header"
def INVALID_SUBJECT_HEADER : String := "Invalid X-Subject-Token header"

/-- Required validity time in minutes (`TOKEN_MIN_VALIDITY`). -/
def TOKEN_MIN_VALIDITY : Int := 10

/-- Embeds `chrono::Duration::minutes(m)` in nanoseconds. -/
def durationMinutes (m : Int) : Int := m * 60 * 1000000000

/-! ## The identity response and `token_from_response`

A response from the identity endpoint, as observed by
`token_from_response`: its headers, and the outcome of deserializing
its body as `protocol::TokenRoot`.  The body deserialization itself
lives in `protocol.rs` (not among the sources), so its outcome is
modelled from the spec as an optional parsed token body. -/

structure IdentityResponse where
  headers : List (String × HeaderValue)
  /-- Modelled from the spec: the outcome of `resp.json::<protocol::TokenRoot>()`
  (`none` when the body does not deserialize as a token document). -/
  body_token : Option ProtocolToken

/-- Embeds `HeaderMap::get`: first header with the given name. -/
def headersGet (hs : List (String × HeaderValue)) (name : String) : Option HeaderValue :=
  (hs.find? (fun p => p.1 == name)).map (·.2)

/-- Modelled from the spec: the error produced by `.from_err()` when the
response body fails to deserialize (§7: malformed identity payload is
`InvalidResponse`). -/
def bodyDecodeError : Error :=
  Error.new ErrorKind.InvalidResponse "Invalid token response body"

/-- Embeds `identity::token_from_response`: take the `x-subject-token` header
(failing with `InvalidResponse` when absent or not valid text), then pair
its text with the deserialized body. -/
def token_from_response (resp : IdentityResponse) : Except Error Token :=
  match headersGet resp.headers "x-subject-token" with
  | none => Except.error (Error.new ErrorKind.InvalidResponse MISSING_SUBJECT_HEADER)
  | some hdr =>
    match hdr.to_str with
    | none => Except.error (Error.new ErrorKind.InvalidResponse INVALID_SUBJECT_HEADER)
    | some s =>
      match resp.body_token with
      | none => Except.error bodyDecodeError
      | some body => Except.ok { value := s, body := body }

/-! ## `Password` and `do_refresh`

The environment of one `do_refresh` run: the current wall-clock time
(`Local::now()`, nanoseconds) and the outcome of the checked `POST` to
the token endpoint, should one be issued. -/

structure IdentityEnv where
  now : Int
  /-- Outcome of `client.post(token_endpoint).json(body).send_checked()`. -/
  send_result : Except Error IdentityResponse

/-! `protocol::PasswordIdentity` / `ProjectScopedAuthRoot`: the request
body (modelled from the spec §6: username, password, user domain,
optional project scope; `protocol.rs` is not among the sources). -/

/-- Modelled from the spec: a named domain (§6). -/
structure DomainName where
  name : String
  deriving Repr, DecidableEq

/-- Modelled from the spec: user identity of the password method (§6). -/
structure UserAndPassword where
  name : String
  password : String
  domain : DomainName
  deriving Repr, DecidableEq

/-- Modelled from the spec: the `password` identity object. -/
structure PasswordAuth where
  user : UserAndPassword
  deriving Repr, DecidableEq

/-- Modelled from the spec: the `identity` object with its methods list. -/
structure IdentityBody where
  methods : List String
  password : PasswordAuth
  deriving Repr, DecidableEq

/-- Modelled from the spec: a project with its domain (§6 project scope). -/
structure Project where
  name : String
  domain : DomainName
  deriving Repr, DecidableEq

/-- Modelled from the spec: the optional project scope. -/
structure ProjectScope where
  project : Project
  deriving Repr, DecidableEq

/-- Modelled from the spec: `protocol::ProjectScope::new`. -/
def ProjectScope.new (project_name project_domain_name : String) : ProjectScope :=
  { project := { name := project_name, domain := { name := project_domain_name } } }

/-- Modelled from the spec: the `auth` object of the request body. -/
structure AuthBody where
  identity : IdentityBody
  scope : Option ProjectScope
  deriving Repr, DecidableEq

/-- Modelled from the spec: `protocol::ProjectScopedAuthRoot`. -/
structure ProjectScopedAuthRoot where
  auth : AuthBody
  deriving Repr, DecidableEq

/-- Modelled from the spec: `protocol::PasswordIdentity::new` builds the
password identity with methods `["password"]`. -/
def PasswordIdentity.new (user_name password user_domain_name : String) : IdentityBody :=
  { methods := ["password"],
    password := { user := { name := user_name, password := password,
                            domain := { name := user_domain_name } } } }

/-- Modelled from the spec: `protocol::ProjectScopedAuthRoot::new`. -/
def ProjectScopedAuthRoot.new (identity : IdentityBody) (scope : Option ProjectScope) :
    ProjectScopedAuthRoot :=
  { auth := { identity := identity, scope := scope } }

/-! ## URLs

Enough of `url::Url` for the sources: a serialized prefix (scheme,
authority) and the path.  `Display` writes the prefix followed by the
path; `path()` returns the path, which for a parsed special-scheme URL
always starts with `/`. -/

structure Url where
  /-- Serialized `scheme://host(:port)` prefix. -/
  base : String
  /-- The URL path; starts with `/` for a parsed http(s) URL. -/
  path : String
  deriving Repr, DecidableEq

def Url.toString (u : Url) : String := u.base ++ u.path

/-- Embeds `str::ends_with` over the characters (computable in the kernel). -/
def strEndsWith (s suffix : String) : Bool :=
  suffix.data.length ≤ s.data.length &&
    s.data.drop (s.data.length - suffix.data.length) == suffix.data

/-- Embeds `identity::Password` (the `client` handle carries no observable data
here; network outcomes live in `IdentityEnv`). -/
structure Password where
  auth_url : Url
  region : Option String
  body : ProjectScopedAuthRoot
  token_endpoint : String
  cached_token : ValueCache Token

/-- Embeds `Password::new_with_client`: compute the token endpoint from the auth
URL (append `/auth/tokens` when the path already ends in `/v3`, else
`/v3/auth/tokens`) and start with an empty cache. -/
def Password.new_with_client (auth_url : Url) (user_name password user_domain_name : String) :
    Password :=
  let token_endpoint :=
    if strEndsWith auth_url.path "/v3" then
      auth_url.toString ++ "/auth/tokens"
    else
      auth_url.toString ++ "/v3/auth/tokens"
  let pw := PasswordIdentity.new user_name password user_domain_name
  let body := ProjectScopedAuthRoot.new pw none
  { auth_url := auth_url,
    region := none,
    body := body,
    token_endpoint := token_endpoint,
    cached_token := ValueCache.new none }

/-- Embeds `Password::set_project_scope`. -/
def Password.set_project_scope (p : Password) (project_name project_domain_name : String) :
    Password :=
  { p with body := { p.body with
      auth := { p.body.auth with scope := some (ProjectScope.new project_name project_domain_name) } } }

/-- Embeds `Password::set_region`. -/
def Password.set_region (p : Password) (region : String) : Password :=
  { p with region := some region }

/-- The validity predicate of `do_refresh`:
`expires_at.signed_duration_since(now) > Duration::minutes(TOKEN_MIN_VALIDITY)`. -/
def tokenStillValid (now : Int) (t : Token) : Bool :=
  t.body.expires_at - now > durationMinutes TOKEN_MIN_VALIDITY

/-- Outcome of one `do_refresh` run: the future's result, the `Password`
state afterwards (only the cache can change), and how many `POST`s to the
token endpoint were issued. -/
structure RefreshOutcome where
  result : Except Error Unit
  state : Password
  posts : Nat

/-- Embeds `Password::do_refresh`: when the cached token is still valid for more
than `TOKEN_MIN_VALIDITY` minutes, do nothing; otherwise issue one checked
`POST` to the token endpoint, parse the response with
`token_from_response`, and store the token in the cache. -/
def Password.do_refresh (p : Password) (env : IdentityEnv) : RefreshOutcome :=
  if p.cached_token.validate (tokenStillValid env.now) then
    { result := Except.ok (), state := p, posts := 0 }
  else
    match env.send_result with
    | Except.error e => { result := Except.error e, state := p, posts := 1 }
    | Except.ok resp =>
      match token_from_response resp with
      | Except.error e => { result := Except.error e, state := p, posts := 1 }
      | Except.ok token =>
        { result := Except.ok (),
          state := { p with cached_token := p.cached_token.set token },
          posts := 1 }

/-- Outcome of a Rust expression that may panic (`unwrap`, `expect`). -/
inductive Out (α : Type) where
  | ok (value : α)
  | err (e : Error)
  | panicked
  deriving Repr, DecidableEq

/-- Embeds `Password::get_token`: refresh, then `extract(|t| t.value.clone()).unwrap()`. -/
def Password.get_token (p : Password) (env : IdentityEnv) : Out String × Password :=
  let r := p.do_refresh env
  match r.result with
  | Except.error e => (Out.err e, r.state)
  | Except.ok () =>
    match r.state.cached_token.extract (fun t => t.value) with
    | some v => (Out.ok v, r.state)
    | none => (Out.panicked, r.state)

/-- Embeds `Password::get_catalog`: refresh, then `extract(|t| t.body.catalog.clone()).unwrap()`. -/
def Password.get_catalog (p : Password) (env : IdentityEnv) :
    Out (List CatalogRecord) × Password :=
  let r := p.do_refresh env
  match r.result with
  | Except.error e => (Out.err e, r.state)
  | Except.ok () =>
    match r.state.cached_token.extract (fun t => t.body.catalog) with
    | some v => (Out.ok v, r.state)
    | none => (Out.panicked, r.state)

/-! ## JSON values and parsing

`client.rs` parses error bodies with `serde_json`.  We embed a JSON
value type and a recursive-descent parser (fuel-indexed).  Numbers are
kept as their raw text (only their well-formedness matters to message
extraction); `\uXXXX` string escapes are not modelled (strings using
them simply fail to parse, falling back to the raw body). -/

inductive Json where
  | null
  | bool (b : Bool)
  | num (raw : String)
  | str (s : String)
  | arr (elems : List Json)
  | obj (fields : List (String × Json))

def isJsonWs (c : Char) : Bool :=
  [' ', '\t', '\n', '\r'].contains c

def skipWs : List Char → List Char
  | [] => []
  | c :: rest => if isJsonWs c then skipWs rest else c :: rest

def escapeTable : List (Char × Char) :=
  [('"', '"'), ('\\', '\\'), ('/', '/'), ('b', Char.ofNat 8),
    ('f', Char.ofNat 12), ('n', '\n'), ('r', '\r'), ('t', '\t')]

def unescape (c : Char) : Option Char :=
  (escapeTable.find? (fun pc => pc.1 == c)).map (fun pc => pc.2)

/-- Parse the remainder of a string literal (after the opening quote). -/
def parseStringRest : List Char → Option (String × List Char)
  | [] => none
  | '\\' :: rest =>
    match rest with
    | [] => none
    | e :: rest' =>
      match unescape e with
      | none => none
      | some c =>
        match parseStringRest rest' with
        | none => none
        | some (s, rem) => some (⟨c :: s.data⟩, rem)
  | '"' :: rest => some ("", rest)
  | c :: rest =>
    if c.toNat < 32 then none
    else
      match parseStringRest rest with
      | none => none
      | some (s, rem) => some (⟨c :: s.data⟩, rem)

def takeDigits : List Char → List Char × List Char
  | [] => ([], [])
  | c :: rest =>
    if c.isDigit then
      let (ds, rem) := takeDigits rest
      (c :: ds, rem)
    else
      ([], c :: rest)

/-- Parse a JSON number (raw text kept). -/
def parseNumber (cs : List Char) : Option (String × List Char) :=
  let (neg, cs₁) := match cs with
    | '-' :: rest => (['-'], rest)
    | _ => (([] : List Char), cs)
  let (intPart, cs₂) := takeDigits cs₁
  if intPart.isEmpty then none
  else
    let (fracPart, cs₃) := match cs₂ with
      | '.' :: rest =>
        let (ds, rem) := takeDigits rest
        if ds.isEmpty then (([] : List Char), cs₂) else ('.' :: ds, rem)
      | _ => ([], cs₂)
    let (expPart, cs₄) := match cs₃ with
      | e :: rest =>
        if e == 'e' || e == 'E' then
          let (sgn, rest') := match rest with
            | '+' :: r => (['+'], r)
            | '-' :: r => (['-'], r)
            | _ => (([] : List Char), rest)
          let (ds, rem) := takeDigits rest'
          if ds.isEmpty then (([] : List Char), cs₃) else (e :: (sgn ++ ds), rem)
        else ([], cs₃)
      | _ => ([], cs₃)
    some (⟨neg ++ intPart ++ fracPart ++ expPart⟩, cs₄)

def expectLit (lit : List Char) (cs : List Char) : Option (List Char) :=
  match lit, cs with
  | [], rest => some rest
  | l :: ls, c :: rest => if l == c then expectLit ls rest else none
  | _ :: _, [] => none

mutual

def parseValue : Nat → List Char → Option (Json × List Char)
  | 0, _ => none
  | Nat.succ fuel, cs =>
    match skipWs cs with
    | [] => none
    | '"' :: rest => (parseStringRest rest).map (fun (s, rem) => (Json.str s, rem))
    | '{' :: rest =>
      (match skipWs rest with
       | '}' :: rem => some (Json.obj [], rem)
       | other => (parseMembers fuel other).map (fun (fs, rem) => (Json.obj fs, rem)))
    | '[' :: rest =>
      (match skipWs rest with
       | ']' :: rem => some (Json.arr [], rem)
       | other => (parseElems fuel other).map (fun (es, rem) => (Json.arr es, rem)))
    | 't' :: rest => (expectLit ['r', 'u', 'e'] rest).map (fun rem => (Json.bool true, rem))
    | 'f' :: rest => (expectLit ['a', 'l', 's', 'e'] rest).map (fun rem => (Json.bool false, rem))
    | 'n' :: rest => (expectLit ['u', 'l', 'l'] rest).map (fun rem => (Json.null, rem))
    | other => (parseNumber other).map (fun (s, rem) => (Json.num s, rem))

def parseMembers : Nat → List Char → Option (List (String × Json) × List Char)
  | 0, _ => none
  | Nat.succ fuel, cs =>
    match skipWs cs with
    | '"' :: rest =>
      (match parseStringRest rest with
       | none => none
       | some (key, rem₁) =>
         match skipWs rem₁ with
         | ':' :: rem₂ =>
           (match parseValue fuel rem₂ with
            | none => none
            | some (v, rem₃) =>
              match skipWs rem₃ with
              | ',' :: rem₄ =>
                (parseMembers fuel rem₄).map (fun (fs, rem₅) => ((key, v) :: fs, rem₅))
              | '}' :: rem₄ => some ([(key, v)], rem₄)
              | _ => none)
         | _ => none)
    | _ => none

def parseElems : Nat → List Char → Option (List Json × List Char)
  | 0, _ => none
  | Nat.succ fuel, cs =>
    match parseValue fuel cs with
    | none => none
    | some (v, rem₁) =>
      match skipWs rem₁ with
      | ',' :: rem₂ => (parseElems fuel rem₂).map (fun (es, rem₃) => (v :: es, rem₃))
      | ']' :: rem₂ => some ([v], rem₂)
      | _ => none

end

/-- Embeds `serde_json::from_str` as a `Json` value: parse one value, then require
only whitespace afterward. -/
def parseJson (text : String) : Option Json :=
  match parseValue (text.length + 2) text.data with
  | some (v, rem) => if (skipWs rem).isEmpty then some v else none
  | none => none

/-! ## `client.rs`: `Message`, `ErrorResponse`, `extract_message`, `check` -/

/-- Embeds `client::Message`: the error-body shape with four optional string
fields. -/
structure Message where
  message : Option String
  faultstring : Option String
  title : Option String
  error_message : Option String
  deriving Repr, DecidableEq

/-- One derived-`Deserialize` field of type `Option<String>`: absent or
`null` gives `None`, a string gives `Some`, any other value (or a
duplicated field) fails the whole deserialization. -/
def getOptStringField (fields : List (String × Json)) (key : String) :
    Option (Option String) :=
  match fields.filter (fun p => p.1 == key) with
  | [] => some none
  | [(_, Json.str s)] => some (some s)
  | [(_, Json.null)] => some none
  | _ => none

/-- Derived `Deserialize` for `client::Message`: an object whose four known
fields, when present, are strings or null; unknown fields are ignored. -/
def messageFromJson : Json → Option Message
  | Json.obj fields =>
    match getOptStringField fields "message" with
    | none => none
    | some m =>
      match getOptStringField fields "faultstring" with
      | none => none
      | some f =>
        match getOptStringField fields "title" with
        | none => none
        | some t =>
          match getOptStringField fields "error_message" with
          | none => none
          | some e => some { message := m, faultstring := f, title := t, error_message := e }
  | _ => none

/-- Embeds `Message::convert`, with the `recursive` flag rendered as the number of
`error_message` indirections still allowed (the flag passes from `true` to
`false`, i.e. from depth 1 to depth 0): pick `message`, `faultstring`,
`title` in that order; failing those, at positive depth, decode a
string-valued `error_message` as JSON once more and retry one level lower. -/
def Message.convertAux : Message → Nat → Option String
  | m, fuel =>
    match (m.message.or m.faultstring).or m.title with
    | some value => some value
    | none =>
      match fuel, m.error_message with
      | Nat.succ fuel', some json =>
        ((parseJson json).bind messageFromJson).bind (fun msg => msg.convertAux fuel')
      | _, _ => none

/-- Embeds `Message::convert(recursive)`: see `Message.convertAux`. -/
def Message.convert (m : Message) (recursive : Bool) : Option String :=
  m.convertAux (if recursive then 1 else 0)

/-- Embeds `client::ErrorResponse`: untagged union of a map from an arbitrary key
to a `Message`, or a plain `Message`. -/
inductive ErrorResponse where
  | Map (entries : List (String × Message))
  | Message (m : Message)
  deriving Repr, DecidableEq

/-- Embeds `HashMap<String, Message>` deserialization: every value of the object
must deserialize as a `Message`.  (Entries are kept in textual order;
`HashMap` iteration order is unspecified in Rust, which only matters for
objects with more than one key.) -/
def mapFromFields : List (String × Json) → Option (List (String × Message))
  | [] => some []
  | (k, v) :: rest =>
    match messageFromJson v with
    | none => none
    | some m => (mapFromFields rest).map (fun ms => (k, m) :: ms)

/-- Untagged `Deserialize` for `ErrorResponse`: try the map shape first,
then the plain-message shape, as declared. -/
def errorResponseFromJson (j : Json) : Option ErrorResponse :=
  match j with
  | Json.obj fields =>
    match mapFromFields fields with
    | some entries => some (ErrorResponse.Map entries)
    | none => (messageFromJson j).map ErrorResponse.Message
  | _ => (messageFromJson j).map ErrorResponse.Message

/-- Embeds `client::extract_message`: parse the body as an `ErrorResponse` and
convert it; any failure falls back to the raw body text. -/
def extract_message (text : String) : String :=
  (((parseJson text).bind errorResponseFromJson).bind (fun body =>
    match body with
    | ErrorResponse.Map entries => entries.head?.bind (fun kv => kv.2.convert true)
    | ErrorResponse.Message msg => msg.convert true)).getD text

/-! ## Responses and `check` -/

structure Response where
  status : Nat
  body : String
  deriving Repr, DecidableEq

/-- Embeds `StatusCode::is_client_error`: 400–499. -/
def statusIsClientError (s : Nat) : Bool := 400 ≤ s && s < 500

/-- Embeds `StatusCode::is_server_error`: 500–599. -/
def statusIsServerError (s : Nat) : Bool := 500 ≤ s && s < 600

/-- Modelled from the spec: `status.into()` maps the status code to an
error kind (§7); the mapping itself lives in `error.rs` (not among the
sources), so the code is carried verbatim. -/
def statusKind (s : Nat) : ErrorKind := ErrorKind.HttpStatus s

/-- Embeds `client::check`: on a 4xx/5xx status, extract a message from the body
and return an error carrying the status; otherwise pass the response
through. -/
def check (resp : Response) : Except Error Response :=
  if statusIsClientError resp.status || statusIsServerError resp.status then
    Except.error ((Error.new (statusKind resp.status) (extract_message resp.body)).with_status resp.status)
  else
    Except.ok resp

/-! ## The request builder and pipeline (`client.rs`)

`reqwest`'s builder is an external collaborator; its configuration
state is modelled as a record, and `try_clone` fails exactly on a
one-shot streaming body (a `reqwest::Body` built from a stream cannot
be cloned; a byte body can). -/

/-- Embeds `reqwest::Body`: reusable bytes or a one-shot stream. -/
inductive Body where
  | bytes (data : List Nat)
  | stream
  deriving Repr, DecidableEq

def Body.isStream : Body → Bool
  | Body.stream => true
  | Body.bytes _ => false

/-- Embeds `reqwest::RequestBuilder` configuration state. -/
structure HttpRequestBuilder where
  method : String
  url : Url
  headers : List (String × String)
  body : Option Body
  query : List (String × String)
  timeout : Option Int
  deriving Repr, DecidableEq

def HttpRequestBuilder.setBody (rb : HttpRequestBuilder) (b : Body) : HttpRequestBuilder :=
  { rb with body := some b }

def HttpRequestBuilder.addHeader (rb : HttpRequestBuilder) (k v : String) : HttpRequestBuilder :=
  { rb with headers := rb.headers ++ [(k, v)] }

def HttpRequestBuilder.addHeaders (rb : HttpRequestBuilder) (hs : List (String × String)) :
    HttpRequestBuilder :=
  { rb with headers := rb.headers ++ hs }

/-- Embeds `reqwest`'s `json`: serialize the payload as the byte body and set the
content type. -/
def HttpRequestBuilder.setJson (rb : HttpRequestBuilder) (payload : String) :
    HttpRequestBuilder :=
  { rb with body := some (Body.bytes (HeaderValue.ofString payload)),
            headers := rb.headers ++ [("content-type", "application/json")] }

def HttpRequestBuilder.addQuery (rb : HttpRequestBuilder) (q : List (String × String)) :
    HttpRequestBuilder :=
  { rb with query := rb.query ++ q }

def HttpRequestBuilder.setTimeout (rb : HttpRequestBuilder) (t : Int) : HttpRequestBuilder :=
  { rb with timeout := some t }

/-- Embeds `reqwest::RequestBuilder::try_clone`: `None` exactly when the body is a
one-shot stream. -/
def HttpRequestBuilder.try_clone (rb : HttpRequestBuilder) : Option HttpRequestBuilder :=
  match rb.body with
  | some Body.stream => none
  | _ => some rb

/-- Embeds `client::RequestBuilder`: the `reqwest` builder plus the authenticated
client handle (the handle's behaviour lives in `PipelineEnv`). -/
structure RequestBuilder where
  inner : HttpRequestBuilder
  client : Unit
  deriving Repr, DecidableEq

/-- The pipeline's environment: the auth backend's `authenticate` outcome
and the transport's `execute` outcome. -/
structure PipelineEnv where
  authenticate : HttpRequestBuilder → Except Error HttpRequestBuilder
  execute : HttpRequestBuilder → Except Error Response

/-- Embeds `RequestBuilder::body`. -/
def RequestBuilder.body (rb : RequestBuilder) (b : Body) : RequestBuilder :=
  { rb with inner := rb.inner.setBody b }

/-- Embeds `RequestBuilder::header`. -/
def RequestBuilder.header (rb : RequestBuilder) (k v : String) : RequestBuilder :=
  { rb with inner := rb.inner.addHeader k v }

/-- Embeds `RequestBuilder::headers`. -/
def RequestBuilder.headers (rb : RequestBuilder) (hs : List (String × String)) : RequestBuilder :=
  { rb with inner := rb.inner.addHeaders hs }

/-- Embeds `RequestBuilder::json`. -/
def RequestBuilder.json (rb : RequestBuilder) (payload : String) : RequestBuilder :=
  { rb with inner := rb.inner.setJson payload }

/-- Embeds `RequestBuilder::query`. -/
def RequestBuilder.query (rb : RequestBuilder) (q : List (String × String)) : RequestBuilder :=
  { rb with inner := rb.inner.addQuery q }

/-- Embeds `RequestBuilder::timeout`. -/
def RequestBuilder.timeout (rb : RequestBuilder) (t : Int) : RequestBuilder :=
  { rb with inner := rb.inner.setTimeout t }

/-- Embeds `RequestBuilder::try_clone`: clone the inner builder when possible and
share the client handle. -/
def RequestBuilder.try_clone (rb : RequestBuilder) : Option RequestBuilder :=
  rb.inner.try_clone.map (fun inner => { inner := inner, client := rb.client })

/-- Embeds `RequestBuilder::send_unchecked`: authenticate, then execute. -/
def RequestBuilder.send_unchecked (rb : RequestBuilder) (env : PipelineEnv) :
    Except Error Response :=
  match env.authenticate rb.inner with
  | Except.error e => Except.error e
  | Except.ok req => env.execute req

/-- Embeds `RequestBuilder::send`: `send_unchecked` then `check`. -/
def RequestBuilder.send (rb : RequestBuilder) (env : PipelineEnv) : Except Error Response :=
  match rb.send_unchecked env with
  | Except.error e => Except.error e
  | Except.ok resp => check resp

/-- Embeds `RequestBuilder::fetch`: `send`, then deserialize the body as JSON
(§4.4: a deserialization failure is `InvalidResponse`). -/
def RequestBuilder.fetch (rb : RequestBuilder) (env : PipelineEnv) : Except Error Json :=
  match rb.send env with
  | Except.error e => Except.error e
  | Except.ok resp =>
    match parseJson resp.body with
    | some j => Except.ok j
    | none => Except.error (Error.new ErrorKind.InvalidResponse "Invalid response body")

/-- Embeds `FetchNext::fetch_next` for `RequestBuilder`: clone the builder —
`expect`ing success, so a streaming body panics — add the query, fetch. -/
def RequestBuilder.fetch_next (rb : RequestBuilder) (q : List (String × String))
    (env : PipelineEnv) : Out Json :=
  match rb.try_clone with
  | none => Out.panicked
  | some prepared =>
    match (prepared.query q).fetch env with
    | Except.ok j => Out.ok j
    | Except.error e => Out.err e

/-! ## `config.rs`: `find_config` and `from_config`

Filesystem and YAML outcomes are environment data; the search order and
the error on absence are the code under verification. -/

/-- The filesystem as `find_config` observes it. -/
structure FsEnv where
  /-- Embeds `Path::new("./clouds.yaml").is_file()`. -/
  current_is_file : Bool
  /-- Outcome of `canonicalize` on `./clouds.yaml` (may fail even when the
  file exists, e.g. on racing removal; failure logs and falls through). -/
  current_canonical : Option String
  /-- Embeds `dirs::home_dir()`. -/
  home_dir : Option String
  /-- Whether `<home>/.config/openstack/clouds.yaml` is a file. -/
  home_is_file : Bool
  /-- Whether `/etc/openstack/clouds.yaml` is a file. -/
  etc_is_file : Bool
  deriving Repr, DecidableEq

/-- Embeds `config::find_config`: current directory, then the per-user file under
the home directory, then the system-wide file. -/
def find_config (env : FsEnv) : Option String :=
  let afterCurrent :=
    let afterHome :=
      if env.etc_is_file then some "/etc/openstack/clouds.yaml" else none
    match env.home_dir with
    | some home =>
      if env.home_is_file then some (home ++ "/.config/openstack/clouds.yaml")
      else afterHome
    | none => afterHome
  if env.current_is_file then
    match env.current_canonical with
    | some v => some v
    | none => afterCurrent
  else afterCurrent

/-- Embeds `config::Auth` (deserialized). -/
structure ConfigAuth where
  auth_url : String
  password : String
  project_name : Option String
  project_domain_name : Option String
  username : String
  user_domain_name : Option String
  deriving Repr, DecidableEq

/-- Embeds `config::Cloud`. -/
structure Cloud where
  auth : ConfigAuth
  region_name : Option String
  deriving Repr, DecidableEq

/-- Embeds `config::Root` (the `clouds` mapping, in textual order). -/
structure ConfigRoot where
  clouds : List (String × Cloud)
  deriving Repr, DecidableEq

/-- The environment of `from_config` beyond path resolution: outcomes of
`File::open`, of the YAML parse, and of URL parsing (the `url` crate). -/
structure ConfigEnv where
  fs : FsEnv
  open_ok : Bool
  parsed : Option ConfigRoot
  parse_url : String → Option Url

/-- Modelled from the spec: the error produced when `Password::new`'s URL
parsing fails (the conversion lives outside the sources). -/
def urlParseError : Error := Error.new ErrorKind.InvalidConfig "invalid auth_url"

/-- Embeds `config::from_config` (returning the configured `Password`; wrapping it
in a `Session` happens in `session.rs`, outside the sources): resolve the
config file — failing with `InvalidConfig` when none of the three
locations has one — open and parse it, look up the cloud, and build the
authentication with defaulted domains, optional project scope and
optional region. -/
def from_config (env : ConfigEnv) (cloud_name : String) : Except Error Password :=
  match find_config env.fs with
  | none =>
    Except.error (Error.new ErrorKind.InvalidConfig "clouds.yaml was not found in any location")
  | some _path =>
    if !env.open_ok then
      Except.error (Error.new ErrorKind.InvalidConfig "Cannot read config.yaml")
    else
      match env.parsed with
      | none => Except.error (Error.new ErrorKind.InvalidConfig "Cannot parse clouds.yaml")
      | some root =>
        match (root.clouds.find? (fun p => p.1 == cloud_name)).map (·.2) with
        | none =>
          Except.error (Error.new ErrorKind.InvalidConfig ("No such cloud: " ++ cloud_name))
        | some cloud =>
          let auth := cloud.auth
          let user_domain := auth.user_domain_name.getD "Default"
          let project_domain := auth.project_domain_name.getD "Default"
          match env.parse_url auth.auth_url with
          | none => Except.error urlParseError
          | some url =>
            let id := Password.new_with_client url auth.username auth.password user_domain
            let id := match auth.project_name with
              | some project_name => id.set_project_scope project_name project_domain
              | none => id
            let id := match cloud.region_name with
              | some region => id.set_region region
              | none => id
            Except.ok id

/-! ## Sample values -/

def sampleUrl : Url := { base := "http://192.0.2.1:5000", path := "/" }

def basePassword : Password := Password.new_with_client sampleUrl "admin" "secret" "Default"

def sampleToken (exp : Int) : Token :=
  { value := "tok", body := { expires_at := exp, catalog := [] } }

/-- A `Password` whose cache holds a token expiring far in the future. -/
def validPassword : Password :=
  { basePassword with cached_token := some (sampleToken 1000000000000000) }

/-- An identity response delivering a fresh token with the given expiry. -/
def freshTokenResponse (exp : Int) : IdentityResponse :=
  { headers := [("x-subject-token", HeaderValue.ofString "newtok")],
    body_token := some { expires_at := exp, catalog := [] } }

/-- An environment at time 0 whose token request succeeds with a token
that expires immediately. -/
def expiredEnv : IdentityEnv :=
  { now := 0, send_result := Except.ok (freshTokenResponse 0) }

def sampleHttpBuilder : HttpRequestBuilder :=
  { method := "GET", url := sampleUrl, headers := [], body := none,
    query := [], timeout := none }

/-- A request builder whose body is a one-shot stream. -/
def streamingBuilder : RequestBuilder :=
  { inner := { sampleHttpBuilder with body := some Body.stream }, client := () }

/-- A request builder with no body set. -/
def plainBuilder : RequestBuilder :=
  { inner := sampleHttpBuilder, client := () }

/-- A pipeline environment that authenticates unchanged and always answers
with an empty JSON array. -/
def sampleEnvP : PipelineEnv :=
  { authenticate := fun rb => Except.ok rb,
    execute := fun _ => Except.ok { status := 200, body := "[]" } }

/-- A configuration environment in which no `clouds.yaml` exists anywhere. -/
def emptyConfigEnv : ConfigEnv :=
  { fs := { current_is_file := false, current_canonical := none, home_dir := none,
            home_is_file := false, etc_is_file := false },
    open_ok := true, parsed := none, parse_url := fun _ => none }

/-! ## Helper lemmas -/

theorem ValueCache.validate_some {α : Type} (v : α) (pred : α → Bool) :
    ValueCache.validate (some v) pred = pred v := rfl

theorem ValueCache.validate_none {α : Type} (pred : α → Bool) :
    ValueCache.validate (none : ValueCache α) pred = false := rfl

/-- After a successful `do_refresh` the cache is populated: either the
valid cached token was kept, or the freshly parsed token was stored. -/
theorem refresh_ok_cache_some (p : Password) (env : IdentityEnv)
    (h : (p.do_refresh env).result = Except.ok ()) :
    ∃ t, (p.do_refresh env).state.cached_token = some t := by
  by_cases hv : p.cached_token.validate (tokenStillValid env.now) = true
  · have hstate : (p.do_refresh env).state = p := by
      simp [Password.do_refresh, hv]
    rw [hstate]
    cases hc : p.cached_token with
    | none => rw [hc, ValueCache.validate_none] at hv; cases hv
    | some t => exact ⟨t, rfl⟩
  · rcases hsr : env.send_result with e | resp
    · exfalso
      have hres : (p.do_refresh env).result = Except.error e := by
        simp [Password.do_refresh, hv, hsr]
      rw [hres] at h; cases h
    · rcases htfr : token_from_response resp with e | tok
      · exfalso
        have hres : (p.do_refresh env).result = Except.error e := by
          simp [Password.do_refresh, hv, hsr, htfr]
        rw [hres] at h; cases h
      · refine ⟨tok, ?_⟩
        simp [Password.do_refresh, hv, hsr, htfr, ValueCache.set]

/-- A failed `do_refresh` leaves the `Password` state (hence the cache)
untouched. -/
theorem refresh_error_state_unchanged (p : Password) (env : IdentityEnv) (e : Error)
    (h : (p.do_refresh env).result = Except.error e) :
    (p.do_refresh env).state = p := by
  by_cases hv : p.cached_token.validate (tokenStillValid env.now) = true
  · simp [Password.do_refresh, hv]
  · rcases hsr : env.send_result with e' | resp
    · simp [Password.do_refresh, hv, hsr]
    · rcases htfr : token_from_response resp with e' | tok
      · simp [Password.do_refresh, hv, hsr, htfr]
      · exfalso
        have hres : (p.do_refresh env).result = Except.ok () := by
          simp [Password.do_refresh, hv, hsr, htfr]
        rw [hres] at h; cases h

/-! ## Claims -/

/-- C1: when the cached credential's expiry is more than 10 minutes after
the current time, `do_refresh` succeeds immediately with no token-request
call and no state change; when the cache is empty or the expiry is at most
10 minutes away, `do_refresh` issues exactly one POST to the token
endpoint. -/
theorem C1_refresh_call_discipline (p : Password) (env : IdentityEnv) :
    ((∃ t, p.cached_token = some t ∧
        t.body.expires_at - env.now > durationMinutes TOKEN_MIN_VALIDITY) →
      p.do_refresh env = { result := Except.ok (), state := p, posts := 0 }) ∧
    ((p.cached_token = none ∨
        ∃ t, p.cached_token = some t ∧
          t.body.expires_at - env.now ≤ durationMinutes TOKEN_MIN_VALIDITY) →
      (p.do_refresh env).posts = 1) := by
  constructor
  · rintro ⟨t, ht, hgt⟩
    have hv : p.cached_token.validate (tokenStillValid env.now) = true := by
      rw [ht, ValueCache.validate_some]
      simpa [tokenStillValid] using hgt
    simp [Password.do_refresh, hv]
  · intro h
    have hv : p.cached_token.validate (tokenStillValid env.now) = false := by
      rcases h with hnone | ⟨t, ht, hle⟩
      · rw [hnone, ValueCache.validate_none]
      · rw [ht, ValueCache.validate_some]
        simp only [tokenStillValid, decide_eq_false_iff_not, not_lt]
        exact hle
    rcases hsr : env.send_result with e | resp
    · simp [Password.do_refresh, hv, hsr]
    · rcases htfr : token_from_response resp with e | tok
      · simp [Password.do_refresh, hv, hsr, htfr]
      · simp [Password.do_refresh, hv, hsr, htfr]

/-- Witness for C1: a far-future cached token is kept with no POST; an
empty cache leads to exactly one POST. -/
theorem C1_refresh_call_discipline_witness :
    validPassword.do_refresh expiredEnv
        = { result := Except.ok (), state := validPassword, posts := 0 } ∧
    (basePassword.do_refresh expiredEnv).posts = 1 :=
  ⟨(C1_refresh_call_discipline validPassword expiredEnv).1
      ⟨sampleToken 1000000000000000, rfl, by decide⟩,
    (C1_refresh_call_discipline basePassword expiredEnv).2 (Or.inl rfl)⟩

/-- C2 (counterexample): starting from an empty cache at time 0, a
successful refresh whose identity service hands back a token that expires
immediately leaves the cache holding a credential that does NOT satisfy
the validity predicate, contradicting the claim that the cache always
satisfies it after a successful refresh. -/
theorem C2_counterexample :
    (basePassword.do_refresh expiredEnv).result = Except.ok () ∧
    (basePassword.do_refresh expiredEnv).state.cached_token.validate
        (tokenStillValid expiredEnv.now) = false :=
  ⟨rfl, rfl⟩

/-- C2 (amended): whenever `do_refresh` returns successfully the cache is
non-empty, and the stored credential satisfies the validity predicate if
and only if its expiry is more than 10 minutes after the current time —
the code does not re-validate a freshly issued token. -/
theorem C2_refresh_cache_amended (p : Password) (env : IdentityEnv)
    (h : (p.do_refresh env).result = Except.ok ()) :
    ∃ t, (p.do_refresh env).state.cached_token = some t ∧
      ((p.do_refresh env).state.cached_token.validate (tokenStillValid env.now) = true ↔
        t.body.expires_at - env.now > durationMinutes TOKEN_MIN_VALIDITY) := by
  obtain ⟨t, ht⟩ := refresh_ok_cache_some p env h
  refine ⟨t, ht, ?_⟩
  rw [ht, ValueCache.validate]
  simp [tokenStillValid]

/-- Witness for C2 (amended): the concrete run of the counterexample still
yields a populated cache, with the validity equivalence. -/
theorem C2_refresh_cache_amended_witness :
    ∃ t, (basePassword.do_refresh expiredEnv).state.cached_token = some t ∧
      ((basePassword.do_refresh expiredEnv).state.cached_token.validate
          (tokenStillValid expiredEnv.now) = true ↔
        t.body.expires_at - expiredEnv.now > durationMinutes TOKEN_MIN_VALIDITY) :=
  C2_refresh_cache_amended basePassword expiredEnv rfl

/-- C10: `get_token` and `get_catalog` can never hit the `unwrap` panic:
whenever `do_refresh` completes successfully the cache is non-empty, so
the extraction always yields a value. -/
theorem C10_extract_after_refresh_safe (p : Password) (env : IdentityEnv) :
    (p.get_token env).1 ≠ Out.panicked ∧ (p.get_catalog env).1 ≠ Out.panicked := by
  constructor
  · simp only [Password.get_token]
    cases hres : (p.do_refresh env).result with
    | error e => simp [hres]
    | ok u =>
      cases u
      obtain ⟨t, ht⟩ := refresh_ok_cache_some p env hres
      simp [hres, ht, ValueCache.extract]
  · simp only [Password.get_catalog]
    cases hres : (p.do_refresh env).result with
    | error e => simp [hres]
    | ok u =>
      cases u
      obtain ⟨t, ht⟩ := refresh_ok_cache_some p env hres
      simp [hres, ht, ValueCache.extract]

/-! ## Error-body examples (§8 of the spec; also the unit tests of
`client.rs`) -/

def simpleMessageBody : String := "\x7b\"message\": \"I failed\"\x7d"

def nestedMessageBody : String := "\x7b\"SomethingFailed\": \x7b\"message\": \"I failed\"\x7d\x7d"

def ironicLegacyBody : String :=
  "\x7b\"error_message\": \"\x7b\\\"faultstring\\\": \\\"I failed\\\"\x7d\"\x7d"

def plainHtmlBody : String := "<html><body>I failed</body></html>"

/-- C3: `extract_message` picks the message from `message`, `faultstring`,
`title` in that priority order, both in a single object and nested under
one arbitrary key; a string-valued `error_message` is decoded through
exactly one recursive level (none at depth zero); and the four §8
examples produce exactly the stated outputs, the plain non-JSON body
coming back unchanged. -/
theorem C3_extract_message_behaviour :
    (∀ (v : String) (f t e : Option String) (r : Bool),
        Message.convert { message := some v, faultstring := f, title := t, error_message := e } r
          = some v) ∧
    (∀ (v : String) (t e : Option String) (r : Bool),
        Message.convert { message := none, faultstring := some v, title := t, error_message := e } r
          = some v) ∧
    (∀ (v : String) (e : Option String) (r : Bool),
        Message.convert { message := none, faultstring := none, title := some v, error_message := e } r
          = some v) ∧
    (∀ (e : Option String),
        Message.convert { message := none, faultstring := none, title := none, error_message := e } false
          = none) ∧
    (∀ (s : String),
        Message.convert { message := none, faultstring := none, title := none, error_message := some s } true
          = ((parseJson s).bind messageFromJson).bind (fun m => m.convert false)) ∧
    (∀ (text k : String) (j : Json) (m : Message),
        parseJson text = some (Json.obj [(k, j)]) →
        messageFromJson j = some m →
        extract_message text = (m.convert true).getD text) ∧
    extract_message simpleMessageBody = "I failed" ∧
    extract_message nestedMessageBody = "I failed" ∧
    extract_message ironicLegacyBody = "I failed" ∧
    extract_message plainHtmlBody = plainHtmlBody :=
  ⟨fun v f t e r => by cases r <;> rfl,
    fun v t e r => by cases r <;> rfl,
    fun v e r => by cases r <;> rfl,
    fun e => rfl,
    fun s => rfl,
    fun text k j m hp hm => by
      simp [extract_message, hp, errorResponseFromJson, mapFromFields, hm],
    rfl, rfl, rfl, rfl⟩

/-- Witness for C3: the single-key dispatch applied to the concrete
nested-message example. -/
theorem C3_extract_message_behaviour_witness :
    extract_message nestedMessageBody =
      (Message.convert
          { message := some "I failed", faultstring := none, title := none, error_message := none }
          true).getD nestedMessageBody :=
  C3_extract_message_behaviour.2.2.2.2.2.1 nestedMessageBody "SomethingFailed"
    (Json.obj [("message", Json.str "I failed")])
    { message := some "I failed", faultstring := none, title := none, error_message := none }
    rfl rfl

/-- C4: constructing a `Password` sets the token endpoint to
`<auth_url>/auth/tokens` when the auth URL's path already ends in `/v3`,
and to `<auth_url>/v3/auth/tokens` otherwise (`<auth_url>` being the
URL's serialized form) — including a URL whose path is just `/`. -/
theorem C4_token_endpoint_rule :
    (∀ (auth_url : Url) (user_name password user_domain_name : String),
        (Password.new_with_client auth_url user_name password user_domain_name).token_endpoint =
          if strEndsWith auth_url.path "/v3" then Url.toString auth_url ++ "/auth/tokens"
          else Url.toString auth_url ++ "/v3/auth/tokens") ∧
    (Password.new_with_client { base := "http://127.0.0.1:8080", path := "/identity" }
        "user" "pw" "example.com").token_endpoint
      = "http://127.0.0.1:8080/identity/v3/auth/tokens" ∧
    (Password.new_with_client { base := "http://127.0.0.1:8080", path := "/identity/v3" }
        "user" "pw" "example.com").token_endpoint
      = "http://127.0.0.1:8080/identity/v3/auth/tokens" ∧
    (Password.new_with_client sampleUrl "admin" "secret" "Default").token_endpoint
      = "http://192.0.2.1:5000//v3/auth/tokens" := by
  refine ⟨?_, ?_, ?_, ?_⟩
  · intro auth_url user_name password user_domain_name; rfl
  · decide
  · decide
  · decide

/-- C5: a request builder can be cloned if and only if its body is not a
one-shot stream, and `fetch_next` on a streaming-body builder panics
(fatal), while on any other builder it never panics. -/
theorem C5_streaming_clone_fatal (rb : RequestBuilder) :
    (rb.try_clone = none ↔ rb.inner.body = some Body.stream) ∧
    (∀ (q : List (String × String)) (env : PipelineEnv),
        rb.inner.body = some Body.stream → rb.fetch_next q env = Out.panicked) ∧
    (∀ (q : List (String × String)) (env : PipelineEnv),
        rb.inner.body ≠ some Body.stream → rb.fetch_next q env ≠ Out.panicked) := by
  have hclone : ∀ h : rb.inner.body = some Body.stream, rb.try_clone = none := by
    intro h
    simp [RequestBuilder.try_clone, HttpRequestBuilder.try_clone, h]
  have hclone' : ∀ h : rb.inner.body ≠ some Body.stream,
      rb.try_clone = some { inner := rb.inner, client := rb.client } := by
    intro h
    rcases hb : rb.inner.body with _ | b
    · simp [RequestBuilder.try_clone, HttpRequestBuilder.try_clone, hb]
    · cases b with
      | bytes data => simp [RequestBuilder.try_clone, HttpRequestBuilder.try_clone, hb]
      | stream => exact absurd hb h
  refine ⟨⟨?_, hclone⟩, ?_, ?_⟩
  · intro hnone
    by_contra h
    rw [hclone' h] at hnone
    cases hnone
  · intro q env h
    simp [RequestBuilder.fetch_next, hclone h]
  · intro q env h
    rw [RequestBuilder.fetch_next, hclone' h]
    rcases hf : RequestBuilder.fetch
        (RequestBuilder.query { inner := rb.inner, client := rb.client } q) env with e | j <;>
      simp [hf]

/-- Witness for C5: a concrete streaming builder panics in `fetch_next`;
the same builder with a byte body does not. -/
theorem C5_streaming_clone_fatal_witness :
    streamingBuilder.fetch_next [] sampleEnvP = Out.panicked ∧
    plainBuilder.fetch_next [] sampleEnvP ≠ Out.panicked :=
  ⟨(C5_streaming_clone_fatal streamingBuilder).2.1 [] sampleEnvP rfl,
    (C5_streaming_clone_fatal plainBuilder).2.2 [] sampleEnvP (by decide)⟩

/-- C6: `check` returns an error carrying the original status and the
extracted message exactly when the status is 4xx/5xx, and passes every
other response through unchanged. -/
theorem C6_check_classification (resp : Response) :
    ((400 ≤ resp.status ∧ resp.status < 600) →
        check resp = Except.error
          { kind := statusKind resp.status,
            message := extract_message resp.body,
            status := some resp.status }) ∧
    (¬(400 ≤ resp.status ∧ resp.status < 600) → check resp = Except.ok resp) := by
  have hbool : (statusIsClientError resp.status || statusIsServerError resp.status) = true ↔
      (400 ≤ resp.status ∧ resp.status < 600) := by
    simp [statusIsClientError, statusIsServerError]
    omega
  constructor
  · intro h
    rw [check, if_pos (hbool.mpr h)]
    rfl
  · intro h
    rw [check, if_neg (fun hc => h (hbool.mp hc))]

/-- Witness for C6: a 404 with a JSON error body becomes an error with the
status and the extracted message; a 200 passes through. -/
theorem C6_check_classification_witness :
    check { status := 404, body := simpleMessageBody } = Except.error
      { kind := statusKind 404, message := extract_message simpleMessageBody,
        status := some 404 } ∧
    check { status := 200, body := plainHtmlBody } =
      Except.ok { status := 200, body := plainHtmlBody } :=
  ⟨(C6_check_classification { status := 404, body := simpleMessageBody }).1 (by decide),
    (C6_check_classification { status := 200, body := plainHtmlBody }).2 (by decide)⟩

/-! Concrete identity responses for C7. -/

/-- A response with a well-formed `x-subject-token` header whose body does
not deserialize as a token document. -/
def headerOnlyResponse : IdentityResponse :=
  { headers := [("x-subject-token", HeaderValue.ofString "abc")], body_token := none }

/-- A response with no `x-subject-token` header. -/
def noHeaderResponse : IdentityResponse :=
  { headers := [], body_token := some { expires_at := 0, catalog := [] } }

/-- C7 (counterexample): a response whose `x-subject-token` header is
present and valid text, but whose body does not deserialize, makes
`token_from_response` fail — so "otherwise produces a credential whose
value is the header's text" does not hold of every response. -/
theorem C7_counterexample :
    (headersGet headerOnlyResponse.headers "x-subject-token").bind HeaderValue.to_str
        = some "abc" ∧
    token_from_response headerOnlyResponse = Except.error bodyDecodeError :=
  ⟨rfl, rfl⟩

/-- C7 (amended): `token_from_response` fails with `InvalidResponse`
whenever the header is missing or not valid text; when the header is
valid text and the body deserializes as a token document, it produces the
credential whose value is the header's text; and any failed refresh
stores no credential (the state is unchanged). -/
theorem C7_subject_token_amended (resp : IdentityResponse) :
    (headersGet resp.headers "x-subject-token" = none →
        token_from_response resp =
          Except.error (Error.new ErrorKind.InvalidResponse MISSING_SUBJECT_HEADER)) ∧
    (∀ hdr, headersGet resp.headers "x-subject-token" = some hdr →
        HeaderValue.to_str hdr = none →
        token_from_response resp =
          Except.error (Error.new ErrorKind.InvalidResponse INVALID_SUBJECT_HEADER)) ∧
    (∀ hdr s body, headersGet resp.headers "x-subject-token" = some hdr →
        HeaderValue.to_str hdr = some s → resp.body_token = some body →
        token_from_response resp = Except.ok { value := s, body := body }) ∧
    (∀ (p : Password) (env : IdentityEnv) (e : Error),
        (p.do_refresh env).result = Except.error e →
        (p.do_refresh env).state = p) := by
  refine ⟨?_, ?_, ?_, ?_⟩
  · intro h
    simp [token_from_response, h]
  · intro hdr h hs
    simp [token_from_response, h, hs]
  · intro hdr s body h hs hb
    simp [token_from_response, h, hs, hb]
  · exact fun p env e h => refresh_error_state_unchanged p env e h

/-- Witness for C7 (amended): the concrete header-less response fails with
the missing-header error. -/
theorem C7_subject_token_amended_witness :
    token_from_response noHeaderResponse =
      Except.error (Error.new ErrorKind.InvalidResponse MISSING_SUBJECT_HEADER) :=
  (C7_subject_token_amended noHeaderResponse).1 rfl

/-- C8: the configuration file is resolved by checking, in order,
`./clouds.yaml`, `~/.config/openstack/clouds.yaml`, then
`/etc/openstack/clouds.yaml`, the first existing file winning (the
current-directory file is reported through its canonicalized path); when
none exists, `from_config` fails with `InvalidConfig`. -/
theorem C8_config_resolution (env : ConfigEnv) (cloud_name : String) :
    (∀ v, env.fs.current_is_file = true → env.fs.current_canonical = some v →
        find_config env.fs = some v) ∧
    (∀ h, env.fs.current_is_file = false → env.fs.home_dir = some h →
        env.fs.home_is_file = true →
        find_config env.fs = some (h ++ "/.config/openstack/clouds.yaml")) ∧
    (env.fs.current_is_file = false →
        (env.fs.home_dir = none ∨ env.fs.home_is_file = false) →
        env.fs.etc_is_file = true →
        find_config env.fs = some "/etc/openstack/clouds.yaml") ∧
    (env.fs.current_is_file = false →
        (env.fs.home_dir = none ∨ env.fs.home_is_file = false) →
        env.fs.etc_is_file = false →
        find_config env.fs = none) ∧
    (find_config env.fs = none →
        from_config env cloud_name =
          Except.error (Error.new ErrorKind.InvalidConfig
            "clouds.yaml was not found in any location")) := by
  refine ⟨?_, ?_, ?_, ?_, ?_⟩
  · intro v hc hcan
    simp [find_config, hc, hcan]
  · intro h hc hh hf
    simp [find_config, hc, hh, hf]
  · intro hc hh he
    rcases hh with hnone | hfile
    · simp [find_config, hc, hnone, he]
    · rcases hd : env.fs.home_dir with _ | home
      · simp [find_config, hc, hd, he]
      · simp [find_config, hc, hd, hfile, he]
  · intro hc hh he
    rcases hh with hnone | hfile
    · simp [find_config, hc, hnone, he]
    · rcases hd : env.fs.home_dir with _ | home
      · simp [find_config, hc, hd, he]
      · simp [find_config, hc, hd, hfile, he]
  · intro h
    simp [from_config, h]

/-- Witness for C8: with no file in any location, resolution yields
nothing and `from_config` reports the `InvalidConfig` error. -/
theorem C8_config_resolution_witness :
    find_config emptyConfigEnv.fs = none ∧
    from_config emptyConfigEnv "devstack" =
      Except.error (Error.new ErrorKind.InvalidConfig
        "clouds.yaml was not found in any location") :=
  ⟨(C8_config_resolution emptyConfigEnv "devstack").2.2.2.1 rfl (Or.inl rfl) rfl,
    (C8_config_resolution emptyConfigEnv "devstack").2.2.2.2
      ((C8_config_resolution emptyConfigEnv "devstack").2.2.2.1 rfl (Or.inl rfl) rfl)⟩

/-- C9: every configuration call produces a new builder value whose state
differs from the original's only in the configured field, and cloning a
non-streaming builder then extending the clone's query leaves every field
of the original builder's configuration unchanged in the clone except the
query, which extends it. -/
theorem C9_builder_immutability (rb : RequestBuilder) :
    (∀ b, (rb.body b).inner = { rb.inner with body := some b }) ∧
    (∀ k v, (rb.header k v).inner = { rb.inner with headers := rb.inner.headers ++ [(k, v)] }) ∧
    (∀ hs, (rb.headers hs).inner = { rb.inner with headers := rb.inner.headers ++ hs }) ∧
    (∀ payload, (rb.json payload).inner =
        { rb.inner with
            body := some (Body.bytes (HeaderValue.ofString payload)),
            headers := rb.inner.headers ++ [("content-type", "application/json")] }) ∧
    (∀ q, (rb.query q).inner = { rb.inner with query := rb.inner.query ++ q }) ∧
    (∀ t, (rb.timeout t).inner = { rb.inner with timeout := some t }) ∧
    (∀ q, rb.inner.body ≠ some Body.stream →
        ∃ c, rb.try_clone = some c ∧ c.inner = rb.inner ∧
          (c.query q).inner.query = rb.inner.query ++ q ∧
          (c.query q).inner.method = rb.inner.method ∧
          (c.query q).inner.url = rb.inner.url ∧
          (c.query q).inner.headers = rb.inner.headers ∧
          (c.query q).inner.body = rb.inner.body ∧
          (c.query q).inner.timeout = rb.inner.timeout) := by
  refine ⟨fun b => rfl, fun k v => rfl, fun hs => rfl, fun payload => rfl,
    fun q => rfl, fun t => rfl, ?_⟩
  intro q h
  have hclone : rb.try_clone = some { inner := rb.inner, client := rb.client } := by
    rcases hb : rb.inner.body with _ | b
    · simp [RequestBuilder.try_clone, HttpRequestBuilder.try_clone, hb]
    · cases b with
      | bytes data => simp [RequestBuilder.try_clone, HttpRequestBuilder.try_clone, hb]
      | stream => exact absurd hb h
  exact ⟨{ inner := rb.inner, client := rb.client }, hclone, rfl, rfl, rfl, rfl, rfl, rfl, rfl⟩

/-- Witness for C9: the clone of a concrete non-streaming builder extends
its query while matching the original elsewhere. -/
theorem C9_builder_immutability_witness :
    ∃ c, plainBuilder.try_clone = some c ∧ c.inner = plainBuilder.inner ∧
      (c.query [("marker", "42")]).inner.query = plainBuilder.inner.query ++ [("marker", "42")] ∧
      (c.query [("marker", "42")]).inner.method = plainBuilder.inner.method ∧
      (c.query [("marker", "42")]).inner.url = plainBuilder.inner.url ∧
      (c.query [("marker", "42")]).inner.headers = plainBuilder.inner.headers ∧
      (c.query [("marker", "42")]).inner.body = plainBuilder.inner.body ∧
      (c.query [("marker", "42")]).inner.timeout = plainBuilder.inner.timeout :=
  (C9_builder_immutability plainBuilder).2.2.2.2.2.2 [("marker", "42")] (by decide)

/-- Witness for C10: the concrete empty-cache run at time 0 neither
panics in `get_token` nor in `get_catalog`. -/
theorem C10_extract_after_refresh_safe_witness :
    (basePassword.get_token expiredEnv).1 ≠ Out.panicked ∧
    (basePassword.get_catalog expiredEnv).1 ≠ Out.panicked :=
  C10_extract_after_refresh_safe basePassword expiredEnv

end Osauth
